import Mathlib

/-!
Verification of the capture orchestration engine of the 360 panorama app
(source: src/components/PanoramaViewer.jsx, the active first component in
the file; the later commented-out variants are historical drift).

The development shallowly embeds:
  - the coverage-plan configuration (elevation bands, azimuth steps) and
    the queue initialization of initializeQueue / resetPanorama;
  - the capture pipeline (performCapture split into its synchronous phase
    and the asynchronous image-onload continuation, captureImage, the
    auto-capture check of the animation loop, resetPanorama) as explicit
    state-passing functions over a PipeState record;
  - the devicemotion stability handler (handleMotion with its timeout)
    as a timed transition system;
  - the sharpenImage 3x3 convolution over RGBA pixel data.
-/

namespace Panorama

/-- A capture target as pushed on the queue by initializeQueue:
azimuth and elevation in degrees. -/
structure CaptureTarget where
  azimuth : Int
  elevation : Int
deriving DecidableEq, Repr

/-- Elevation levels, in the order of the source array
[0, 30, 60, 90, -30, -60, -90]. -/
def elevationLevels : List Int := [0, 30, 60, 90, -30, -60, -90]

/-- The azimuthIncrements lookup table of the source: 0 to 40, 30 to 45,
60 to 60, 90 to 360, -30 to 45, -60 to 60, -90 to 360; none elsewhere. -/
def azimuthIncrements (elev : Int) : Option Nat :=
  if elev = 0 then some 40
  else if elev = 30 then some 45
  else if elev = 60 then some 60
  else if elev = 90 then some 360
  else if elev = -30 then some 45
  else if elev = -60 then some 60
  else if elev = -90 then some 360
  else none

/-- The increment actually used: azimuthIncrements[elev] with the
source default of 60 when the lookup is undefined. -/
def incrementFor (elev : Int) : Nat := (azimuthIncrements elev).getD 60

/-- Ceiling division on naturals, the value of Math.ceil(360 / increment)
for positive integer arguments. -/
def ceilDiv (a b : Nat) : Nat := (a + b - 1) / b

/-- maxCaptures: the reduce over elevationLevels accumulating
Math.ceil(360 / increment) per band. -/
def maxCaptures : Nat :=
  elevationLevels.foldl (fun total elev => total + ceilDiv 360 (incrementFor elev)) 0

/-- The inner loop of initializeQueue for one band: push
(azimuth = i * increment, elevation) for i = 0 .. captures-1. -/
def bandTargets (elev : Int) : List CaptureTarget :=
  (List.range (ceilDiv 360 (incrementFor elev))).map
    (fun i => { azimuth := (i * incrementFor elev : Nat), elevation := elev })

/-- initializeQueue: forEach over elevationLevels pushing each band,
then the while loop popping until the length is at most maxCaptures. -/
def initializeQueue : List CaptureTarget :=
  ((elevationLevels.foldl (fun q elev => q ++ bandTargets elev) []).take maxCaptures)

/-- The queue rebuilt inside resetPanorama; the source duplicates the
construction of initializeQueue verbatim (forEach push, then truncation). -/
def resetQueue : List CaptureTarget :=
  ((elevationLevels.foldl (fun q elev => q ++ bandTargets elev) []).take maxCaptures)

/-- Modelled from the spec wording of the claim: for each elevation band in
the fixed order, emit ceil(360/step) targets at azimuths 0, step, 2*step,
... (i*step, not wrapped modulo 360), concatenated preserving band order. -/
def planSpec : List CaptureTarget :=
  (elevationLevels.map (fun elev =>
    (List.range (ceilDiv 360 (incrementFor elev))).map
      (fun i => { azimuth := (i * incrementFor elev : Nat), elevation := elev }))).flatten

/-! ### The capture pipeline as a state machine

The source drives captures through mutable refs (captureQueueRef,
capturedPlanesRef, captureCountRef, capturingRef, firstCaptureDoneRef) and
React state (isStable, isPanoramaComplete, instructions).  performCapture
runs synchronously up to and including the queue shift and the canvas
frame grab, then finishes in an asynchronous image onload continuation
that appends the captured plane, increments the counter and clears the
in-flight flag.  We model the mutable store as a PipeState record, the
synchronous phase as performCaptureSync and the continuation as
resolveCapture; in-flight continuations are a FIFO list of pending
captures (each remembering the dequeued target and the isAuto flag it
closed over). -/

/-- The instruction messages the pipeline writes (identified, not spelled
out, since only their identity matters to the claims). -/
inductive Instruction where
  | initial
  | moving
  | firstCaptured
  | autoCaptured (n : Nat)
  | completed
deriving DecidableEq, Repr

/-- An in-flight capture: the onload continuation of performCapture,
closing over the dequeued target and the isAuto argument. -/
structure PendingCapture where
  target : CaptureTarget
  isAuto : Bool
deriving DecidableEq, Repr

/-- The mutable store of the component that the capture pipeline reads and
writes: queue (captureQueueRef), planes (capturedPlanesRef, each tile
identified by its target), captureCount (captureCountRef), capturing
(capturingRef), firstDone (firstCaptureDoneRef), isComplete
(isPanoramaComplete), isStable, the pending onload continuations, and the
current instruction message. -/
structure PipeState where
  queue : List CaptureTarget
  planes : List CaptureTarget
  captureCount : Nat
  capturing : Bool
  firstDone : Bool
  isComplete : Bool
  isStable : Bool
  pending : List PendingCapture
  instructions : Instruction
deriving DecidableEq, Repr

/-- The synchronous phase of performCapture(isAuto).  In order: the
stability guard (warn and set the moving instruction), the in-flight
guard (return unchanged), setting capturingRef true, the resource check
(resourcesOk stands for renderer, scene, videoPlane, marker, hiddenCanvas
and video all being non-null; on failure capturingRef is reset to false
and the call returns, net unchanged), the empty-queue completion branch,
and otherwise the queue shift plus frame grab, which leaves the onload
continuation pending with capturingRef still true. -/
def performCaptureSync (resourcesOk isAuto : Bool) (s : PipeState) : PipeState :=
  if s.isStable = false then { s with instructions := Instruction.moving }
  else if s.capturing = true then s
  else if resourcesOk = false then s
  else
    match s.queue with
    | [] => { s with instructions := Instruction.completed, isComplete := true }
    | t :: rest =>
        { s with queue := rest, capturing := true,
                 pending := s.pending ++ [{ target := t, isAuto := isAuto }] }

/-- The asynchronous onload continuation of performCapture, run when the
oldest in-flight capture resolves: append the captured plane to the
CURRENT capturedPlanesRef list, increment the CURRENT captureCountRef,
set the instruction message (manual captures also set
firstCaptureDoneRef), set isPanoramaComplete when the incremented count
reaches maxCaptures (which also overwrites the instruction with the
completion message), and clear capturingRef. -/
def resolveCapture (s : PipeState) : PipeState :=
  match s.pending with
  | [] => s
  | pc :: rest =>
      { s with
        planes := s.planes ++ [pc.target],
        captureCount := s.captureCount + 1,
        firstDone := if pc.isAuto = false then true else s.firstDone,
        isComplete := if maxCaptures ≤ s.captureCount + 1 then true else s.isComplete,
        instructions :=
          if maxCaptures ≤ s.captureCount + 1 then Instruction.completed
          else if pc.isAuto = false then Instruction.firstCaptured
          else Instruction.autoCaptured (s.captureCount + 1),
        capturing := false,
        pending := rest }

/-- One successful capture from trigger to commit: the synchronous phase
with all resources available followed by the onload continuation. -/
def captureCycle (isAuto : Bool) (s : PipeState) : PipeState :=
  resolveCapture (performCaptureSync true isAuto s)

/-- captureImage, the manual trigger: guarded by capturingRef being clear
and captureCountRef below maxCaptures, then performCapture(false). -/
def captureImage (resourcesOk : Bool) (s : PipeState) : PipeState :=
  if s.capturing = false ∧ s.captureCount < maxCaptures then
    performCaptureSync resourcesOk false s
  else s

/-- The auto-capture check of the animation loop: when firstCaptureDone,
not capturing, count below maxCaptures, the marker is centered and the
device stable, it sets capturingRef true, calls performCapture(true) via
autoCaptureImage, and clears capturingRef once the returned promise
resolves. -/
def triggerAutoCapture (resourcesOk centered : Bool) (s : PipeState) : PipeState :=
  if s.firstDone = true ∧ s.capturing = false ∧ s.captureCount < maxCaptures ∧
      centered = true ∧ s.isStable = true then
    { performCaptureSync resourcesOk true { s with capturing := true } with
        capturing := false }
  else s

/-- resetPanorama: remove every captured plane, clear the tile list, zero
the counters and flags, restore the initial instruction, and rebuild the
queue.  The pending onload continuations are untouched: the source has no
mechanism to cancel an in-flight capture, whose closure still runs against
the post-reset refs when it resolves. -/
def resetState (s : PipeState) : PipeState :=
  { queue := resetQueue,
    planes := [],
    captureCount := 0,
    capturing := false,
    firstDone := false,
    isComplete := false,
    isStable := s.isStable,
    pending := s.pending,
    instructions := Instruction.initial }

/-- A fresh session immediately after queue initialization, with device
stability attained so that captures are possible. -/
def startState : PipeState :=
  { queue := initializeQueue,
    planes := [],
    captureCount := 0,
    capturing := false,
    firstDone := false,
    isComplete := false,
    isStable := true,
    pending := [],
    instructions := Instruction.initial }

/-- Draining run: one successful capture cycle per queued target. -/
def drain (s : PipeState) : PipeState :=
  (captureCycle true)^[s.queue.length] s

/-! ### The stability detector

handleMotion reads a devicemotion event, computes the Euclidean norms of
acceleration and rotation rate (missing axes coalesced to 0), and compares
each against motionThreshold = 0.05.  Below threshold it sets isStable
true immediately (clearing any pending timeout); otherwise it sets
isStable false and (re)arms a timeout that sets isStable false again
stableDuration = 300 ms later.  We model the norms by their squares over
the rationals (sqrt m < t holds exactly when m^2 < t^2 for nonnegative
inputs), events as timestamped samples, and the armed timeout as the
absolute time at which it is due, fired before any later event. -/

/-- One devicemotion sample: acceleration x, y, z and rotationRate alpha,
beta, gamma, each possibly missing (the source coalesces with 0). -/
structure MotionSample where
  ax : Option ℚ
  ay : Option ℚ
  az : Option ℚ
  ralpha : Option ℚ
  rbeta : Option ℚ
  rgamma : Option ℚ
deriving DecidableEq, Repr

/-- Squared acceleration magnitude, missing axes read as 0. -/
def accSqMag (e : MotionSample) : ℚ :=
  (e.ax.getD 0) * (e.ax.getD 0) + (e.ay.getD 0) * (e.ay.getD 0) +
    (e.az.getD 0) * (e.az.getD 0)

/-- Squared rotation-rate magnitude, missing axes read as 0. -/
def rotSqMag (e : MotionSample) : ℚ :=
  (e.ralpha.getD 0) * (e.ralpha.getD 0) + (e.rbeta.getD 0) * (e.rbeta.getD 0) +
    (e.rgamma.getD 0) * (e.rgamma.getD 0)

/-- motionThreshold of the source, 0.05, squared (the source compares the
Euclidean norms against 0.05; on nonnegative values that comparison is
equivalent to comparing the squared magnitudes against 0.0025). -/
def motionThresholdSq : ℚ := 1 / 400

/-- stableDuration of the source, in milliseconds. -/
def stableDuration : Nat := 300

/-- The comparison accMagnitude < motionThreshold and
rotMagnitude < motionThreshold, stated on squares. -/
def isBelowThreshold (e : MotionSample) : Bool :=
  decide (accSqMag e < motionThresholdSq) &&
    decide (rotSqMag e < motionThresholdSq)

/-- The stability detector store: the isStable React state and the armed
stabilityTimeoutRef, recorded as the absolute due time of the scheduled
setIsStable(false), if armed. -/
structure StabState where
  isStable : Bool
  timeout : Option Nat
deriving DecidableEq, Repr

/-- The initial stability store: useState(false), no timeout armed. -/
def initStab : StabState := { isStable := false, timeout := none }

/-- Fire the armed timeout if its due time has been reached:
setIsStable(false). -/
def fireTimeout (now : Nat) (st : StabState) : StabState :=
  match st.timeout with
  | some due => if due ≤ now then { isStable := false, timeout := none } else st
  | none => st

/-- handleMotion on one event: below threshold, if not already stable, set
isStable true and clear any armed timeout; at or above threshold, set
isStable false, clear the armed timeout and arm a new one due
stableDuration milliseconds from now. -/
def handleMotion (now : Nat) (e : MotionSample) (st : StabState) : StabState :=
  if isBelowThreshold e = true then
    if st.isStable = false then { isStable := true, timeout := none } else st
  else
    { isStable := false, timeout := some (now + stableDuration) }

/-- Process a timestamped event trace: before each event, fire the armed
timeout if due, then run handleMotion. -/
def processTrace (events : List (Nat × MotionSample)) (st : StabState) : StabState :=
  events.foldl (fun s e => handleMotion e.1 e.2 (fireTimeout e.1 s)) st

/-- The all-zero motion sample: a device at perfect rest. -/
def restSample : MotionSample :=
  { ax := none, ay := none, az := none,
    ralpha := none, rbeta := none, rgamma := none }

/-! ### The sharpening convolution

sharpenImage draws the image on a canvas, then for every output pixel and
each of the R, G, B channels accumulates the 3x3 kernel
[0,-1,0,-1,5,-1,0,-1,0] over the in-bounds neighbours, clamps to
[0,255] and writes alpha 255.  Pixel data is modelled as a function from
flat RGBA offsets to integer channel values, as in an ImageData array. -/

/-- The flat 3x3 sharpening kernel of the source. -/
def kernelList : List Int := [0, -1, 0, -1, 5, -1, 0, -1, 0]

/-- kernel[i] lookup. -/
def kernelAt (i : Nat) : Int := kernelList.getD i 0

/-- The in-bounds test of the source for the tap (kx, ky) at pixel
(x, y): px = x + kx - 1 and py = y + ky - 1 both inside the image. -/
def inBoundsTap (w h x y kx ky : Nat) : Prop :=
  0 ≤ (x : Int) + kx - 1 ∧ (x : Int) + kx - 1 < w ∧
    0 ≤ (y : Int) + ky - 1 ∧ (y : Int) + ky - 1 < h

instance (w h x y kx ky : Nat) : Decidable (inBoundsTap w h x y kx ky) := by
  unfold inBoundsTap; infer_instance

/-- The flat data offset (py * width + px) * 4 + c of the tap. -/
def tapPos (w x y kx ky c : Nat) : Nat :=
  ((((y : Int) + ky - 1).toNat * w + ((x : Int) + kx - 1).toNat) * 4 + c)

/-- The accumulation loops of sharpenImage for channel c of pixel (x, y):
for ky and kx from 0 to 2, add data[pos] * kernel[ky*3+kx] when the tap is
in bounds. -/
def convCode (w h : Nat) (data : Nat → Int) (x y c : Nat) : Int :=
  (List.range 3).foldl (fun acc ky =>
    (List.range 3).foldl (fun acc2 kx =>
      if inBoundsTap w h x y kx ky then
        acc2 + data (tapPos w x y kx ky c) * kernelAt (ky * 3 + kx)
      else acc2) acc) 0

/-- Math.min(Math.max(v, 0), 255). -/
def clamp255 (v : Int) : Int := min (max v 0) 255

/-- The output ImageData of sharpenImage as a function of the flat
offset: channel c of pixel (x, y) lives at (y*w + x)*4 + c; channels 0-2
get the clamped convolution, channel 3 gets 255. -/
def sharpenedData (w h : Nat) (data : Nat → Int) (idx : Nat) : Int :=
  let c := idx % 4
  let pix := idx / 4
  let x := pix % w
  let y := pix / w
  if c = 3 then 255 else clamp255 (convCode w h data x y c)

/-- The nine kernel taps (ky, kx) in the row-major order the loops visit
them. -/
def tapList : List (Nat × Nat) :=
  [(0, 0), (0, 1), (0, 2), (1, 0), (1, 1), (1, 2), (2, 0), (2, 1), (2, 2)]

/-- Modelled from the spec wording of the claim: the convolution result is
the sum, over the nine kernel taps, of the weighted channel values of the
in-bounds taps, with out-of-bounds taps contributing zero. -/
def convSpec (w h : Nat) (data : Nat → Int) (x y c : Nat) : Int :=
  (tapList.map (fun p =>
    if inBoundsTap w h x y p.2 p.1 then
      data (tapPos w x y p.2 p.1 c) * kernelAt (p.1 * 3 + p.2)
    else 0)).sum

/-! ### Helper lemmas -/

/-- One successful capture cycle on a stable, idle state with a non-empty
queue: the head is dequeued and committed, the counter incremented, the
completion flag and message set exactly when the new count reaches
maxCaptures, the in-flight flag clear again. -/
theorem captureCycle_step (b : Bool) (s : PipeState) (t : CaptureTarget)
    (rest : List CaptureTarget) (hst : s.isStable = true) (hc : s.capturing = false)
    (hp : s.pending = []) (hq : s.queue = t :: rest) :
    captureCycle b s =
      { s with
        queue := rest,
        planes := s.planes ++ [t],
        captureCount := s.captureCount + 1,
        capturing := false,
        firstDone := if b = false then true else s.firstDone,
        isComplete := if maxCaptures ≤ s.captureCount + 1 then true else s.isComplete,
        pending := [],
        instructions :=
          if maxCaptures ≤ s.captureCount + 1 then Instruction.completed
          else if b = false then Instruction.firstCaptured
          else Instruction.autoCaptured (s.captureCount + 1) } := by
  simp [captureCycle, performCaptureSync, resolveCapture, hst, hc, hp, hq]

/-- Draining an idle, stable state with queue q by q.length capture cycles
appends exactly q, in order, to the tile list, empties the queue, adds
q.length to the counter, and lands idle, stable, with nothing pending. -/
theorem drain_spec (q : List CaptureTarget) :
    ∀ s : PipeState, s.queue = q → s.isStable = true → s.capturing = false →
      s.pending = [] →
      ((captureCycle true)^[q.length] s).planes = s.planes ++ q ∧
      ((captureCycle true)^[q.length] s).queue = [] ∧
      ((captureCycle true)^[q.length] s).captureCount = s.captureCount + q.length ∧
      ((captureCycle true)^[q.length] s).isStable = true ∧
      ((captureCycle true)^[q.length] s).capturing = false ∧
      ((captureCycle true)^[q.length] s).pending = [] := by
  induction q with
  | nil =>
      intro s hq hst hc hp
      simp [hq, hst, hc, hp]
  | cons t rest ih =>
      intro s hq hst hc hp
      have hstep := captureCycle_step true s t rest hst hc hp hq
      rw [List.length_cons, Function.iterate_succ_apply, hstep]
      have ihr := ih
        { s with
          queue := rest,
          planes := s.planes ++ [t],
          captureCount := s.captureCount + 1,
          capturing := false,
          firstDone := if true = false then true else s.firstDone,
          isComplete := if maxCaptures ≤ s.captureCount + 1 then true else s.isComplete,
          pending := [],
          instructions :=
            if maxCaptures ≤ s.captureCount + 1 then Instruction.completed
            else if true = false then Instruction.firstCaptured
            else Instruction.autoCaptured (s.captureCount + 1) }
        rfl hst rfl rfl
      obtain ⟨h1, h2, h3, h4, h5, h6⟩ := ihr
      refine ⟨?_, h2, ?_, h4, h5, h6⟩
      · rw [h1]; simp
      · rw [h3]; simp; omega

/-! ### Claims -/

/-- C1: with the active configuration (bands [0, 30, 60, 90, -30, -60,
-90], steps 40, 45, 60, 360, 45, 60, 360), maxCaptures, and hence the
length of the initialized capture queue, equals the per-band sum of
ceil(360/step) = 9+8+6+1+8+6+1 = 39. -/
theorem max_captures_is_39 :
    maxCaptures = 9 + 8 + 6 + 1 + 8 + 6 + 1 ∧
    maxCaptures = 39 ∧
    initializeQueue.length = maxCaptures := by
  decide

/-- C4: queue initialization, and the re-initialization performed by
resetPanorama, both produce exactly the plan obtained by emitting, for
each elevation band in the fixed order, ceil(360/step) targets at
azimuths i*step (not wrapped modulo 360), concatenated preserving band
order; in particular the two construction sites yield identical ordered
target sequences. -/
theorem queue_matches_plan :
    initializeQueue = planSpec ∧ resetQueue = initializeQueue := by
  decide

/-- C2 (code evaluated at the failing input): a single devicemotion
sample at rest at time 0 — below threshold for 0 ms, far less than the
300 ms dwell — already makes handleMotion report isStable = true.  The
stability flag is granted immediately on the first below-threshold
sample; the stableDuration timer is only ever armed to set isStable
false and never gates the transition to stable. -/
theorem stability_reported_without_dwell :
    isBelowThreshold restSample = true ∧
    (processTrace [(0, restSample)] initStab).isStable = true ∧
    0 < stableDuration := by
  have hb : isBelowThreshold restSample = true := by
    norm_num [isBelowThreshold, accSqMag, rotSqMag, restSample, motionThresholdSq]
  refine ⟨hb, ?_, by norm_num [stableDuration]⟩
  simp [processTrace, fireTimeout, initStab, handleMotion, hb]

/-- C3 counterexample: start a manual capture on a fresh stable session
(this dequeues target (0, 0)), call resetPanorama while it is in flight,
then let the capture resolve.  The claim says no tile from the pre-reset
attempt is ever appended or counted after a reset, so the tile list
should still be empty and the count 0; the code instead appends the
pre-reset tile to the post-reset list and counts it. -/
theorem reset_does_not_discard_inflight :
    (resolveCapture (resetState (performCaptureSync true false startState))).planes =
      [{ azimuth := 0, elevation := 0 }] ∧
    (resolveCapture (resetState (performCaptureSync true false startState))).captureCount = 1 := by
  decide

/-- C3 amended: resetPanorama can be called in any pipeline state and
reinitializes the queue, tile list and counters, but an in-flight capture
is NOT discarded: a capture dequeued before the reset is, once its onload
resolves, appended to the post-reset tile list and counted there. -/
theorem reset_midflight_commits_stale_tile (b : Bool) (s : PipeState)
    (t : CaptureTarget) (rest : List CaptureTarget) (hst : s.isStable = true)
    (hc : s.capturing = false) (hp : s.pending = []) (hq : s.queue = t :: rest) :
    (resolveCapture (resetState (performCaptureSync true b s))).planes = [t] ∧
    (resolveCapture (resetState (performCaptureSync true b s))).captureCount = 1 ∧
    (resolveCapture (resetState (performCaptureSync true b s))).queue = resetQueue := by
  simp [performCaptureSync, resetState, resolveCapture, hst, hc, hp, hq]

/-- Witness for the amended C3 at the fresh session. -/
theorem reset_midflight_commits_stale_tile_witness :
    (resolveCapture (resetState (performCaptureSync true true startState))).planes =
      [{ azimuth := 0, elevation := 0 }] ∧
    (resolveCapture (resetState (performCaptureSync true true startState))).captureCount = 1 ∧
    (resolveCapture (resetState (performCaptureSync true true startState))).queue = resetQueue :=
  reset_midflight_commits_stale_tile true startState { azimuth := 0, elevation := 0 }
    (initializeQueue.drop 1) rfl rfl rfl (by decide)

/-- C5: from an idle, stable state whose queue holds N targets, N
successive successful captures dequeue exactly those N targets in plan
order (strict FIFO: the tile list extends by the queue itself), and a
further capture attempt on the now-empty queue dequeues nothing and
commits nothing — the empty queue is handled as the normal terminal
condition (completion flag and message), not an error. -/
theorem fifo_drain_then_empty (s : PipeState) (b : Bool) (hst : s.isStable = true)
    (hc : s.capturing = false) (hp : s.pending = []) :
    (drain s).planes = s.planes ++ s.queue ∧
    (drain s).queue = [] ∧
    (drain s).captureCount = s.captureCount + s.queue.length ∧
    (performCaptureSync true b (drain s)).queue = [] ∧
    (performCaptureSync true b (drain s)).planes = (drain s).planes ∧
    (performCaptureSync true b (drain s)).captureCount = (drain s).captureCount ∧
    (performCaptureSync true b (drain s)).pending = (drain s).pending ∧
    (performCaptureSync true b (drain s)).isComplete = true := by
  obtain ⟨h1, h2, h3, h4, h5, h6⟩ := drain_spec s.queue s rfl hst hc hp
  have hd : drain s = (captureCycle true)^[s.queue.length] s := rfl
  rw [hd] at *
  refine ⟨h1, h2, h3, ?_, ?_, ?_, ?_, ?_⟩ <;>
    simp [performCaptureSync, h2, h4, h5, h6]

/-- Witness for C5 at the fresh stable session. -/
theorem fifo_drain_then_empty_witness :
    (drain startState).planes = startState.planes ++ startState.queue ∧
    (drain startState).queue = [] ∧
    (drain startState).captureCount = startState.captureCount + startState.queue.length ∧
    (performCaptureSync true true (drain startState)).queue = [] ∧
    (performCaptureSync true true (drain startState)).planes = (drain startState).planes ∧
    (performCaptureSync true true (drain startState)).captureCount =
      (drain startState).captureCount ∧
    (performCaptureSync true true (drain startState)).pending = (drain startState).pending ∧
    (performCaptureSync true true (drain startState)).isComplete = true :=
  fifo_drain_then_empty startState true rfl rfl rfl

/-- C6: when frame acquisition cannot proceed (renderer, scene, video
plane, marker, hidden canvas or video source unavailable), a capture
attempt on a stable, idle pipeline aborts atomically: the state is
entirely unchanged — no dequeue, no tile, no counter change — and the
in-flight flag ends clear (idle). -/
theorem frame_failure_atomic (s : PipeState) (b : Bool) (hst : s.isStable = true)
    (hc : s.capturing = false) :
    performCaptureSync false b s = s ∧ (performCaptureSync false b s).capturing = false := by
  have h : performCaptureSync false b s = s := by simp [performCaptureSync, hst, hc]
  exact ⟨h, by rw [h, hc]⟩

/-- Witness for C6 at the fresh stable session. -/
theorem frame_failure_atomic_witness :
    performCaptureSync false true startState = startState ∧
    (performCaptureSync false true startState).capturing = false :=
  frame_failure_atomic startState true rfl rfl

/-- C7: while a capture is in flight (capturingRef set), any second
capture trigger is a no-op: performCapture itself dequeues nothing,
appends no tile, changes no counter and adds nothing in flight, and both
the manual trigger (captureImage) and the auto trigger (the animation
loop check) leave the state exactly unchanged, surfacing no error. -/
theorem inflight_second_trigger_noop (s : PipeState) (ok b c : Bool)
    (h : s.capturing = true) :
    (performCaptureSync ok b s).queue = s.queue ∧
    (performCaptureSync ok b s).planes = s.planes ∧
    (performCaptureSync ok b s).captureCount = s.captureCount ∧
    (performCaptureSync ok b s).pending = s.pending ∧
    (performCaptureSync ok b s).isComplete = s.isComplete ∧
    captureImage ok s = s ∧
    triggerAutoCapture ok c s = s := by
  rcases hb : s.isStable <;>
    simp [performCaptureSync, captureImage, triggerAutoCapture, h, hb]

/-- Witness for C7 on an in-flight state. -/
theorem inflight_second_trigger_noop_witness :
    (performCaptureSync true true { startState with capturing := true }).queue =
      { startState with capturing := true }.queue ∧
    (performCaptureSync true true { startState with capturing := true }).planes =
      { startState with capturing := true }.planes ∧
    (performCaptureSync true true { startState with capturing := true }).captureCount =
      { startState with capturing := true }.captureCount ∧
    (performCaptureSync true true { startState with capturing := true }).pending =
      { startState with capturing := true }.pending ∧
    (performCaptureSync true true { startState with capturing := true }).isComplete =
      { startState with capturing := true }.isComplete ∧
    captureImage true { startState with capturing := true } =
      { startState with capturing := true } ∧
    triggerAutoCapture true true { startState with capturing := true } =
      { startState with capturing := true } :=
  inflight_second_trigger_noop { startState with capturing := true } true true true rfl

set_option maxRecDepth 100000 in
/-- C8: draining the fresh session (capturing its last planned target, so
the counter reaches maxCaptures and the queue empties) sets the
completion flag; capturing the single remaining target of any stable idle
state whose incremented count reaches maxCaptures sets the completion
flag; and once the counter has reached maxCaptures every auto-capture
trigger is a no-op (no tile appended, no counter changed) — only an
explicit reset, which zeroes the counter, can re-enable captures. -/
theorem completion_is_terminal :
    (drain startState).isComplete = true ∧
    (drain startState).captureCount = maxCaptures ∧
    (drain startState).queue = [] ∧
    (∀ (b : Bool) (s : PipeState) (t : CaptureTarget), s.isStable = true →
      s.capturing = false → s.pending = [] → s.queue = [t] →
      maxCaptures ≤ s.captureCount + 1 → (captureCycle b s).isComplete = true) ∧
    (∀ (ok c : Bool) (s : PipeState), maxCaptures ≤ s.captureCount →
      triggerAutoCapture ok c s = s) := by
  refine ⟨by decide, by decide, by decide, ?_, ?_⟩
  · intro b s t hst hc hp hq hm
    rw [captureCycle_step b s t [] hst hc hp hq]
    simp [hm]
  · intro ok c s hm
    have hlt : ¬ s.captureCount < maxCaptures := by omega
    simp [triggerAutoCapture, hlt]

/-- Witness for C8: last-target capture on a concrete state, and the
auto trigger as a no-op on a concrete completed state. -/
theorem completion_is_terminal_witness :
    (captureCycle true
      { startState with queue := [{ azimuth := 0, elevation := 0 }],
                        captureCount := 38 }).isComplete = true ∧
    triggerAutoCapture true true { startState with queue := [], captureCount := 39 } =
      { startState with queue := [], captureCount := 39 } :=
  ⟨completion_is_terminal.2.2.2.1 true
      { startState with queue := [{ azimuth := 0, elevation := 0 }], captureCount := 38 }
      { azimuth := 0, elevation := 0 } rfl rfl rfl rfl (by decide),
   completion_is_terminal.2.2.2.2 true true
      { startState with queue := [], captureCount := 39 } (by decide)⟩

/-- C10: whenever the stability flag is false, every capture attempt —
including the first manual one — is rejected before any work happens:
performCapture changes nothing but the instruction message (no dequeue,
no tile, no counter change), and the manual trigger path through
captureImage does the same. -/
theorem unstable_capture_rejected (s : PipeState) (ok b : Bool)
    (h : s.isStable = false) :
    performCaptureSync ok b s = { s with instructions := Instruction.moving } ∧
    (s.capturing = false → s.captureCount < maxCaptures →
      captureImage ok s = { s with instructions := Instruction.moving }) := by
  have h1 : performCaptureSync ok b s = { s with instructions := Instruction.moving } := by
    simp [performCaptureSync, h]
  refine ⟨h1, fun hc hlt => ?_⟩
  have h2 : performCaptureSync ok false s = { s with instructions := Instruction.moving } := by
    simp [performCaptureSync, h]
  simp [captureImage, hc, hlt, h2]

/-- Witness for C10 on the fresh session before stability is attained. -/
theorem unstable_capture_rejected_witness :
    performCaptureSync true false { startState with isStable := false } =
      { { startState with isStable := false } with instructions := Instruction.moving } ∧
    captureImage true { startState with isStable := false } =
      { { startState with isStable := false } with instructions := Instruction.moving } :=
  ⟨(unstable_capture_rejected { startState with isStable := false } true false rfl).1,
   (unstable_capture_rejected { startState with isStable := false } true false rfl).2
      rfl (by decide)⟩

/-- Pulling the conditional contribution out of an accumulation step. -/
theorem ite_acc_add (c : Prop) [Decidable c] (a t : Int) :
    (if c then a + t else a) = a + (if c then t else 0) := by
  split <;> simp

/-- The nested accumulation loops of sharpenImage compute exactly the sum
of the weighted in-bounds taps, out-of-bounds taps contributing zero. -/
theorem convCode_eq_convSpec (w h : Nat) (data : Nat → Int) (x y c : Nat) :
    convCode w h data x y c = convSpec w h data x y c := by
  have hr : List.range 3 = [0, 1, 2] := rfl
  simp only [convCode, convSpec, tapList, hr, List.foldl_cons, List.foldl_nil,
    List.map_cons, List.map_nil, List.sum_cons, List.sum_nil, ite_acc_add]
  ring

/-- C9: for every input image and every pixel (x, y), the sharpening step
writes, for each of the R, G, B channels, the 3x3 kernel
[[0,-1,0],[-1,5,-1],[0,-1,0]] convolution of that channel clamped to
[0, 255], computed over the in-bounds taps only (out-of-bounds taps
contribute zero — no padding), and writes 255 to the alpha channel. -/
theorem sharpen_pixel_correct (w h : Nat) (data : Nat → Int) (x y : Nat)
    (hx : x < w) (hy : y < h) :
    (∀ c, c < 3 →
      sharpenedData w h data ((y * w + x) * 4 + c) = clamp255 (convSpec w h data x y c)) ∧
    sharpenedData w h data ((y * w + x) * 4 + 3) = 255 := by
  have hw : 0 < w := lt_of_le_of_lt (Nat.zero_le x) hx
  have hswap : y * w + x = x + y * w := by ring
  have hmod : (y * w + x) % w = x := by
    rw [hswap, Nat.add_mul_mod_self_right, Nat.mod_eq_of_lt hx]
  have hdiv : (y * w + x) / w = y := by
    rw [hswap, Nat.add_mul_div_right _ _ hw, Nat.div_eq_of_lt hx, Nat.zero_add]
  constructor
  · intro c hc
    have e1 : ((y * w + x) * 4 + c) % 4 = c := by omega
    have e2 : ((y * w + x) * 4 + c) / 4 = y * w + x := by omega
    have e3 : ¬ c = 3 := by omega
    simp [sharpenedData, e1, e2, e3, hmod, hdiv, convCode_eq_convSpec]
  · have e1 : ((y * w + x) * 4 + 3) % 4 = 3 := by omega
    simp [sharpenedData, e1]

/-- Witness for C9 on a one-pixel image of constant channel value 7. -/
theorem sharpen_pixel_correct_witness :
    (∀ c, c < 3 →
      sharpenedData 1 1 (fun _ => 7) ((0 * 1 + 0) * 4 + c) =
        clamp255 (convSpec 1 1 (fun _ => 7) 0 0 c)) ∧
    sharpenedData 1 1 (fun _ => 7) ((0 * 1 + 0) * 4 + 3) = 255 :=
  sharpen_pixel_correct 1 1 (fun _ => 7) 0 0 (by decide) (by decide)

end Panorama
